import Mathlib

/-!
Verification of the jovian-py commit pipeline against its specification.

The development is a shallow embedding of `jovian/utils/api.py` and
`jovian/utils/commit.py`.  Pure control flow is translated directly;
external collaborators (the credentials store, the notebook/script context
detector, the environment capturers, the git helper, the filesystem and the
remote HTTP service) are modelled as oracle fields of a `World` record, so
that every theorem quantifies over their behaviour or instantiates them
concretely.  Side effects (log lines, API calls, rcfile writes, git
actions) are reified as an explicit effect trace `List Eff`; exceptions
raised to the caller are an `Except.error`; the possible divergence of
`_attach_files` is made visible with a fuel parameter, `none` meaning the
fuel ran out at every depth.
-/

namespace Jovian

/-- An HTTP response as seen by the retry wrapper: status code plus body text. -/
structure Response where
  status_code : Nat
  text : String
deriving DecidableEq, Repr

/-- Arguments received by the underlying `requests.get` verb. `headers` stands
for the keyword arguments (`**kwargs`) actually used by the callers in
`api.py`. -/
structure GetArgs where
  url : String
  params : Option String
  headers : Option String
deriving DecidableEq, Repr

/-- Arguments received by the underlying `requests.post` verb. -/
structure PostArgs where
  url : String
  data : Option String
  json : Option String
  files : Option String
  headers : Option String
deriving DecidableEq, Repr

/-- Body of `get(url, params=None, **kwargs)` in `api.py` (the function wrapped
by the `retry` decorator): it executes `return mkget(url, params=None, **kwargs)`,
i.e. it forwards the literal default `None` in the `params` slot rather than
the `params` argument it received. -/
def get_args (url : String) (params : Option String) (headers : Option String) : GetArgs :=
  { url := url, params := none, headers := headers }

/-- Body of `post(url, data=None, json=None, **kwargs)` in `api.py`: it executes
`return mkpost(url, data=None, json=None, **kwargs)`, forwarding the literal
defaults in the `data` and `json` slots rather than the arguments received. -/
def post_args (url : String) (data : Option String) (json : Option String)
    (files : Option String) (headers : Option String) : PostArgs :=
  { url := url, data := none, json := none, files := files, headers := headers }

/-- Observable events of the retry wrapper: issuing the wrapped request with
given headers, and the purge-credential-then-rebuild-headers round performed
after a 401 (`purge_api_key()` followed by `kwargs['headers'] = _h()`). -/
inductive HttpEff
  | issueRequest (headers : String)
  | purgeAndRefresh
deriving DecidableEq, Repr

/-- True exactly on `HttpEff.issueRequest`. -/
def HttpEff.isIssue : HttpEff → Bool
  | .issueRequest _ => true
  | _ => false

/-- True exactly on `HttpEff.purgeAndRefresh`. -/
def HttpEff.isAuth : HttpEff → Bool
  | .purgeAndRefresh => true
  | _ => false

/-- `_request_wrapper` produced by the `retry` decorator in `api.py`, with the
loop `for i in range(2)` unrolled.  `request` is the wrapped verb as a
function of its `headers` keyword; `refresh n` models the fresh headers
returned by the n-th `_h()` call made after purging the cached key.  Returns
the response handed back to the caller together with the trace of requests
issued and purge/refresh rounds performed.  Note that after a second 401 the
loop body still purges the key and rebuilds headers before the loop ends and
the function returns `res`. -/
def _request_wrapper (request : String → Response) (refresh : Nat → String)
    (headers : String) : Response × List HttpEff :=
  let res1 := request headers
  if res1.status_code = 401 then
    let headers1 := refresh 0
    let res2 := request headers1
    if res2.status_code = 401 then
      (res2, [.issueRequest headers, .purgeAndRefresh, .issueRequest headers1, .purgeAndRefresh])
    else
      (res2, [.issueRequest headers, .purgeAndRefresh, .issueRequest headers1])
  else
    (res1, [.issueRequest headers])

/-- Remote API calls issued by the commit pipeline, as recorded in the effect
trace. -/
inductive ApiCall
  | getCurrentUser
  | getGist (slug : String)
  | checkAccess (slug : Option String)
  | createGist
  | uploadNotebook (slug : String)
  | postRecords (slug : String)
deriving DecidableEq, Repr

/-- Git side effects that `_perform_git_commit` would produce (via the
`records` and `git` collaborator modules). -/
inductive GitOp
  | resetRecords (recordType : String)
  | gitCommit (message : String)
  | logGitRecord (repository commitHash filename relativePath : String)
deriving DecidableEq, Repr

/-- One reified side effect of the commit pipeline. `log` is a logger line
with its error flag; `attachAttempt` marks an invocation of `_attach_file`
on a path together with the `output` flag it received; `setCurrentSlug` and
`rcWrite` are the `_current_slug` update and the `.jovianrc` write. -/
inductive Eff
  | log (msg : String) (error : Bool)
  | api (c : ApiCall)
  | attachAttempt (path : String) (output : Bool)
  | setCurrentSlug (slug : String)
  | rcWrite (filename slug : String)
  | git (g : GitOp)
  | saveNotebook
deriving DecidableEq, Repr

/-- True exactly on git effects. -/
def Eff.isGit : Eff → Bool
  | .git _ => true
  | _ => false

/-- True exactly on `attachAttempt` effects. -/
def Eff.isAttach : Eff → Bool
  | .attachAttempt _ _ => true
  | _ => false

/-- Python's `'/' in project` membership test, over the string's character
list. -/
def containsSlash (s : String) : Bool :=
  s.data.contains '/'

/-- True exactly on the final success log line of `commit` (a log line
beginning with the success phrase). -/
def Eff.isSuccessLog : Eff → Bool
  | .log m _ => "Committed successfully!".data.isPrefixOf m.data
  | _ => false

/-- Gist metadata as returned by `api.get_gist` (the `data` field of a 200
response): the fields `_parse_project` reads. -/
structure GistMeta where
  owner_username : String
  title : String
  slug : Option String
deriving DecidableEq, Repr

/-- Result of `api.create_gist_simple` / `api.upload_file` for the base
notebook upload: the fields `commit` destructures
(`res['slug'], res['owner'], res['version'], res['title']`). -/
structure GistRes where
  slug : String
  owner_username : String
  version : Nat
  title : String
deriving DecidableEq, Repr

/-- The `paths` argument of `_attach_files`, which the source inspects with
`type(paths) == str` and may be a single string or a list of strings. -/
inductive StrOrList
  | str (s : String)
  | list (l : List String)
deriving DecidableEq, Repr

/-- Outcome of one environment-capture collaborator call (`upload_conda_env`
or `upload_pip_env`): success, a raised `CondaError` with its message, or any
other raised exception with its message. -/
inductive EnvOutcome
  | ok
  | condaErr (msg : String)
  | otherErr (msg : String)
deriving DecidableEq, Repr

/-- The oracle record for everything outside `commit.py`'s own control flow.

Fields modelling collaborator modules that are not under `src/` are taken
from the spec's description of those interfaces (spec sections 4.3, 6):
`is_uuid` ("looks like an opaque id", from `jovian.utils.misc`),
`get_current_user` (the current authenticated user's username, from
`GET /user/profile`), and `post_records` (the record-batch association call,
which raises a descriptive exception on a non-2xx response).  Remote results
(`get_gist`, `get_gist_access`, `upload_notebook`, `create_gist`) are the
values produced by the corresponding `api.py` functions, which raise
(`Except.error`) on any non-200 response. -/
structure World where
  in_script : Bool
  in_notebook : Bool
  script_filename : Option String
  notebook_name : Option String
  get_file_extension : String → String
  /-- Modelled from the spec: `is_uuid` from `jovian.utils.misc` (not under
  `src/`) decides whether an identifier looks like an opaque id. -/
  is_uuid : String → Bool
  /-- Modelled from the spec: `api.get_current_user` (not under `src/`)
  returns the current authenticated user's username, or raises. -/
  get_current_user : Except String String
  get_gist : String → Except String (Option GistMeta)
  get_gist_access : Option String → Except String Bool
  upload_notebook : String → Except String GistRes
  create_gist : Except String GistRes
  conda : EnvOutcome
  pip : EnvOutcome
  fs_isDir : String → Bool
  fs_exists : String → Bool
  fs_walk : String → List (String × List String)
  fs_openErr : String → Option String
  record_slugs : List String
  /-- Modelled from the spec: `api.post_records` — the `POST
  /data/{slug}/commit` record association call referenced by
  `_attach_records`; it raises a descriptive `ApiError` on failure.  (The
  `api.py` under `src/` names this function `commit_records`.) -/
  post_records : Except String Unit
  webapp_url : String
  is_git : Bool
  git_remote : String
  git_commit_hash : String
  git_relative_path : String

/-- `_parse_filename` from `commit.py`: auto-detect the filename when not
provided, otherwise append the context-appropriate extension when the
provided name has neither `.py` nor `.ipynb`. -/
def _parse_filename (w : World) (filename : Option String) : Option String :=
  match filename with
  | none =>
    if w.in_script then w.script_filename
    else if w.in_notebook then w.notebook_name
    else none
  | some f =>
    if w.get_file_extension f = ".py" ∨ w.get_file_extension f = ".ipynb" then some f
    else some (f ++ (if w.in_script then ".py" else ".ipynb"))

/-- `_parse_project` from `commit.py`.  `current_slug` is the global
`_current_slug`, `rc` is `get_notebook_slug` from the rcfile collaborator.
Returns the effect trace together with either the `(project_title,
project_id)` pair or a raised exception.  Note that `api.get_gist` raises on
a failed fetch, and `_parse_project` installs no handler, so a fetch failure
is an `Except.error` here; the `if not metadata` branch only fires when a
200 response carries a falsy `data` field. -/
def _parse_project (w : World) (current_slug : Option String) (rc : String → Option String)
    (project0 : Option String) (filename : String) (new_project : Bool) :
    List Eff × Except String (Option String × Option String) :=
  let project :=
    if ¬new_project ∧ project0 = none then
      match current_slug with
      | some s => some s
      | none => rc filename
    else project0
  match project with
  | none => ([], .ok (none, none))
  | some proj =>
    let fetched : List Eff × Except String (Option GistMeta) :=
      if w.is_uuid proj || containsSlash proj then
        ([.api (.getGist proj)], w.get_gist proj)
      else
        match w.get_current_user with
        | .error e => ([.api .getCurrentUser], .error e)
        | .ok username =>
          ([.api .getCurrentUser, .api (.getGist (username ++ "/" ++ proj))],
           w.get_gist (username ++ "/" ++ proj))
    match fetched with
    | (effs, .error e) => (effs, .error e)
    | (effs, .ok none) =>
      (effs ++ [.log ("Failed to retrieve metadata for the project \"" ++ proj ++ "\"") false],
       .ok (none, none))
    | (effs, .ok (some md)) =>
      let project_name := md.owner_username ++ md.title
      let project_id := md.slug
      let effs := effs ++ [.api (.checkAccess project_id)]
      match w.get_gist_access project_id with
      | .error e => (effs, .error e)
      | .ok write =>
        if ¬write then (effs, .ok (none, none))
        else
          let logEff :=
            match project_id with
            | none => Eff.log ("Creating a new notebook on " ++ w.webapp_url) false
            | some _ => Eff.log ("Updating notebook \"" ++ proj ++ "\" on " ++ w.webapp_url) false
          (effs ++ [logEff], .ok (some project_name, project_id))

/-- `api.create_gist_simple(filename, gist_slug, secret)`: opens `filename`
(raising if that fails), logs, then either uploads to the existing gist
(`if gist_slug:` — Python truthiness, so an empty-string slug falls through
to creation) or posts to `/gist/create`. -/
def create_gist_simple (w : World) (filename : String) (gist_slug : Option String) :
    List Eff × Except String GistRes :=
  match w.fs_openErr filename with
  | some e => ([], .error e)
  | none =>
    match gist_slug with
    | some s =>
      if s = "" then
        ([.log "Uploading notebook.." false, .api .createGist], w.create_gist)
      else
        ([.log "Uploading notebook.." false, .api (.uploadNotebook s)], w.upload_notebook s)
    | none =>
      ([.log "Uploading notebook.." false, .api .createGist], w.create_gist)

/-- Error message of `os.path.dirname(f)` evaluated on the open binary file
object `f` in `_attach_file` (line `folder = os.path.dirname(f)`):
`os.fspath` rejects a file object with a `TypeError`. -/
def dirnameTypeError : String :=
  "TypeError: expected str, bytes or os.PathLike object, not BufferedReader"

/-- `_attach_file` from `commit.py`.  The whole body sits in a
`try/except Exception` that logs `str(e)` with the error flag.  Opening the
file can fail (`fs_openErr`); when it succeeds the next statement
`folder = os.path.dirname(f)` raises a `TypeError` because `f` is the open
file object, so the subsequent call
`api.upload_file(gist_slug, file_obj, folder, version, output)` (which would
itself be a `TypeError`: five positional arguments against the signature
`upload_file(gist_slug, file, version=None, artifact=False)`) is never
reached, and no upload request is issued. -/
def _attach_file (w : World) (path gist_slug : String) (version : Option Nat)
    (output : Bool) : List Eff :=
  Eff.attachAttempt path output ::
    (match w.fs_openErr path with
     | some e => [.log e true]
     | none => [.log dirnameTypeError true])

/-- The `os.walk` loop of `_attach_files` over a directory path: for every
`(folder, _, files)` triple and every contained file name, attach
`os.path.join(folder, fname)`. -/
def _walk_attach (w : World) (path gist_slug : String) (version : Option Nat)
    (output : Bool) : List Eff :=
  (w.fs_walk path).foldl
    (fun acc fw =>
      acc ++ fw.2.foldl
        (fun acc2 fname => acc2 ++ _attach_file w (fw.1 ++ "/" ++ fname) gist_slug version output)
        [])
    []

/-- Python truthiness test `not paths or len(paths) == 0` on the `paths`
argument. -/
def pathsIsEmpty : StrOrList → Bool
  | .str s => s = ""
  | .list l => l.isEmpty

/-- The `if type(paths) == str: paths = [paths]` conversion. -/
def toPathList : StrOrList → List String
  | .str s => [s]
  | .list l => l

/-- One iteration of the `for path in paths` loop of `_attach_files`:
a directory is walked and each contained file handed to `_attach_file`;
otherwise an existing path is handed back to `_attach_files` itself — the
source's existing-file branch reads `_attach_files(path, ...)`, not
`_attach_file(path, ...)` — here abstracted as `recur`; otherwise the path
is logged as not found.  A `none` accumulator (exhausted fuel) is
propagated. -/
def _attach_step (recur : String → Option (List Eff)) (w : World) (gist_slug : String)
    (version : Option Nat) (output : Bool) (acc : Option (List Eff)) (path : String) :
    Option (List Eff) :=
  match acc with
  | none => none
  | some effs =>
    if w.fs_isDir path then
      some (effs ++ _walk_attach w path gist_slug version output)
    else if w.fs_exists path then
      match recur path with
      | none => none
      | some effs2 => some (effs ++ effs2)
    else
      some (effs ++ [.log ("Ignoring \"" ++ path ++ "\" (not found)") true])

/-- `_attach_files` from `commit.py`, with an explicit fuel parameter
(`none` = the computation is still running when the fuel is exhausted, at
every depth).  Early return on an empty argument, the `Uploading
additional ...` header log, the string-to-singleton-list conversion, and the
per-path loop `_attach_step`, whose recursive `_attach_files(path, ...)`
call consumes one unit of fuel. -/
def _attach_files : Nat → World → StrOrList → String → Option Nat → Bool → Option (List Eff)
  | 0, _, _, _, _, _ => none
  | fuel + 1, w, paths, gist_slug, version, output =>
    if pathsIsEmpty paths then some []
    else
      let header := Eff.log ("Uploading additional " ++ (if output then "outputs" else "files") ++ "...") false
      (toPathList paths).foldl
        (_attach_step (fun path => _attach_files fuel w (.str path) gist_slug version output)
          w gist_slug version output)
        (some [header])

/-- `_capture_environment` from `commit.py`.  The conda step catches only
`CondaError` (any other exception propagates); the pip step, attempted when
conda did not capture and the mode allows it, catches every exception. -/
def _capture_environment (w : World) (environment : Option String) :
    List Eff × Except String Unit :=
  match environment with
  | none => ([], .ok ())
  | some env =>
    let effs : List Eff := [.log "Capturing environment.." false]
    let condaStep : List Eff × Except String Bool :=
      if env = "auto" ∨ env = "conda" then
        match w.conda with
        | .ok => (effs, .ok true)
        | .condaErr m => (effs ++ [.log m true], .ok false)
        | .otherErr m => (effs, .error m)
      else (effs, .ok false)
    match condaStep with
    | (effs, .error m) => (effs, .error m)
    | (effs, .ok captured) =>
      if ¬captured ∧ (env = "pip" ∨ env = "auto") then
        match w.pip with
        | .ok => (effs, .ok ())
        | .condaErr m => (effs ++ [.log m true], .ok ())
        | .otherErr m => (effs ++ [.log m true], .ok ())
      else (effs, .ok ())

/-- `_perform_git_commit` from `commit.py`: reset the buffered git records,
run the git commit, log, and record the git metadata.  (Defined by the
source but never invoked by `commit`.) -/
def _perform_git_commit (w : World) (filename : String) (git_commit : Bool)
    (git_message : String) : List Eff :=
  if git_commit ∧ w.is_git then
    [.git (.resetRecords "git"),
     .git (.gitCommit git_message),
     .log "Git repository identified. Performing git commit..." false,
     .git (.logGitRecord w.git_remote w.git_commit_hash filename w.git_relative_path)]
  else []

/-- `_attach_records` from `commit.py`: when any record slugs are buffered,
log and call the record association endpoint (whose failure, an
`Except.error`, is not handled here nor by `commit`). -/
def _attach_records (w : World) (gist_slug : String) (version : Option Nat) :
    List Eff × Except String Unit :=
  if w.record_slugs.length > 0 then
    ([.log "Attaching records (metrics, hyperparameters, datasets, git etc.)" false,
      .api (.postRecords gist_slug)],
     w.post_records)
  else ([], .ok ())

/-- The `commit` orchestrator from `commit.py`, with the source's statement
order: context check, notebook save, filename resolution, project
resolution, base upload, slug persistence, environment capture, `files`
attachment, `outputs` attachment (the source passes `output=False` here
too), record attachment, success log.  The result is `none` when
`_attach_files` diverges, otherwise the effect trace together with `.ok ()`
(normal return) or `.error` (an exception raised to the caller).  The
`message`, `privacy` and `git_message` arguments are accepted as in the
source; the source body never uses `message` or `git_message`, and `privacy`
only reaches the `create_gist_simple` oracle.  No step of the body invokes
`_perform_git_commit`. -/
def commit (w : World) (fuel : Nat) (message : Option String)
    (files outputs : StrOrList) (environment : Option String) (privacy : String)
    (filename0 : Option String) (project : Option String) (new_project : Bool)
    (git_commit : Bool) (git_message : String)
    (current_slug : Option String) (rc : String → Option String) :
    Option (List Eff × Except String Unit) :=
  if ¬w.in_script ∧ ¬w.in_notebook then
    some ([.log "Failed to detect Jupyter notebook or Python script. Skipping.." true], .ok ())
  else
    let effs0 : List Eff :=
      if w.in_notebook then [.log "Attempting to save notebook.." false, .saveNotebook] else []
    match _parse_filename w filename0 with
    | none => some (effs0 ++ [.log "FILENAME_MSG" false], .ok ())
    | some filename =>
      match _parse_project w current_slug rc project filename new_project with
      | (effs1, .error e) => some (effs0 ++ effs1, .error e)
      | (effs1, .ok (_project_title, project_id)) =>
        match create_gist_simple w filename project_id with
        | (effs2, .error e) => some (effs0 ++ effs1 ++ effs2, .error e)
        | (effs2, .ok res) =>
          let effs3 : List Eff := [.setCurrentSlug res.slug, .rcWrite filename res.slug]
          match _capture_environment w environment with
          | (effs4, .error e) => some (effs0 ++ effs1 ++ effs2 ++ effs3 ++ effs4, .error e)
          | (effs4, .ok _) =>
            match _attach_files fuel w files res.slug (some res.version) false with
            | none => none
            | some effs5 =>
              match _attach_files fuel w outputs res.slug (some res.version) false with
              | none => none
              | some effs6 =>
                match _attach_records w res.slug (some res.version) with
                | (effs7, .error e) =>
                  some (effs0 ++ effs1 ++ effs2 ++ effs3 ++ effs4 ++ effs5 ++ effs6 ++ effs7,
                        .error e)
                | (effs7, .ok _) =>
                  some (effs0 ++ effs1 ++ effs2 ++ effs3 ++ effs4 ++ effs5 ++ effs6 ++ effs7 ++
                          [.log ("Committed successfully! " ++ w.webapp_url ++
                                 res.owner_username ++ "/" ++ res.title) false],
                        .ok ())

/-- A base concrete world used by the closed theorems: a detected script
context (`train.py`), a healthy remote service, an empty filesystem, no
buffered records, and a git repository present. -/
def W0 : World where
  in_script := true
  in_notebook := false
  script_filename := some "train.py"
  notebook_name := none
  get_file_extension := fun _ => ".py"
  is_uuid := fun _ => false
  get_current_user := .ok "alice"
  get_gist := fun _ => .ok (some { owner_username := "alice", title := "proj", slug := some "s123" })
  get_gist_access := fun _ => .ok true
  upload_notebook := fun s => .ok { slug := s, owner_username := "alice", version := 2, title := "proj" }
  create_gist := .ok { slug := "s123", owner_username := "alice", version := 1, title := "train" }
  conda := .ok
  pip := .ok
  fs_isDir := fun _ => false
  fs_exists := fun _ => false
  fs_walk := fun _ => []
  fs_openErr := fun _ => none
  record_slugs := []
  post_records := .ok ()
  webapp_url := "https://jovian.ml/"
  is_git := true
  git_remote := "git@github.com:alice/proj.git"
  git_commit_hash := "abc123"
  git_relative_path := "train.py"

/-- World for the attachment-divergence run: `a.txt` is an existing regular
file (not a directory). -/
def W2 : World :=
  { W0 with fs_exists := fun p => p = "a.txt" }

/-- Error message of a failing record-association request. -/
def recordsErr : String :=
  "ApiError: Data logging failed: (HTTP 500) Something went wrong"

/-- World for the record-flush-failure run: one buffered record slug, and a
record-association call that raises. -/
def W3 : World :=
  { W0 with record_slugs := ["t1"], post_records := .error recordsErr }

/-- Effect trace of `commit` on `W3` up to the point where the record flush
raises: the base upload and slug persistence succeed, the record attachment
is logged and its API call issued, and nothing afterwards runs. -/
def E3 : List Eff :=
  [.log "Uploading notebook.." false,
   .api .createGist,
   .setCurrentSlug "s123",
   .rcWrite "train.py" "s123",
   .log "Attaching records (metrics, hyperparameters, datasets, git etc.)" false,
   .api (.postRecords "s123")]

/-- Error message raised by `api.get_gist` on a 404 metadata fetch. -/
def gistFetchErr : String :=
  "Failed to retrieve metadata for notebook \"alice/proj\": (HTTP 404) Gist not found"

/-- World for the failed-metadata-fetch run: every gist fetch raises. -/
def W5 : World :=
  { W0 with get_gist := fun _ => .error gistFetchErr }

/-- Effect trace of a fully successful `commit` run on `W0` with no files,
outputs, records or project: base upload, slug persistence, success log —
and no git effect, although `W0.is_git` holds and `git_commit` is true. -/
def E6 : List Eff :=
  [.log "Uploading notebook.." false,
   .api .createGist,
   .setCurrentSlug "s123",
   .rcWrite "train.py" "s123",
   .log "Committed successfully! https://jovian.ml/alice/train" false]

/-- World for the outputs-attachment run: `outdir` is a directory whose walk
yields the single file `model.h5`. -/
def W7 : World :=
  { W0 with
    fs_isDir := fun p => p = "outdir",
    fs_exists := fun p => p = "outdir",
    fs_walk := fun p => if p = "outdir" then [("outdir", ["model.h5"])] else [] }

/-- Effect trace of `commit` on `W7` with `outputs = ["outdir"]`: the
attachment step walks the directory, attempts `model.h5` with the `output`
flag `false` (the call site passes `output=False` for outputs, and even the
header log says "files"), and the attempt itself fails before reaching
`api.upload_file`. -/
def E7 : List Eff :=
  [.log "Uploading notebook.." false,
   .api .createGist,
   .setCurrentSlug "s123",
   .rcWrite "train.py" "s123",
   .log "Uploading additional files..." false,
   .attachAttempt "outdir/model.h5" false,
   .log dirnameTypeError true,
   .log "Committed successfully! https://jovian.ml/alice/train" false]

/-- World for the explicit-project witnesses: the remote knows the project
`bob/proj` with slug `s777`, grants write access, and accepts the version
upload. -/
def Wc : World :=
  { W0 with
    get_gist := fun k =>
      if k = "bob/proj" then .ok (some { owner_username := "bob", title := "proj", slug := some "s777" })
      else .error "Failed to retrieve metadata",
    get_gist_access := fun s => .ok (s = some "s777"),
    upload_notebook := fun s => .ok { slug := s, owner_username := "bob", version := 5, title := "proj" } }

/-- World for the write-denied witness: metadata for `bob/proj` resolves,
but `check-access` reports no write permission. -/
def Wd : World :=
  { Wc with get_gist_access := fun _ => .ok false }

/-- World for the best-effort witness: the conda capture raises a
`CondaError`, the pip capture raises some other exception, and the
filesystem is empty (so every attachment path is missing). -/
def W3a : World :=
  { W0 with
    conda := .condaErr "CondaError: conda not found",
    pip := .otherErr "pip freeze failed" }

set_option maxRecDepth 8000

/-- C1: the claim states that the transport wrapper's GET passes its query
parameters, and its POST its form-data or JSON payload, through to the
underlying HTTP verb.  The source instead forwards the literal defaults:
`get` executes `mkget(url, params=None, **kwargs)` and `post` executes
`mkpost(url, data=None, json=None, **kwargs)`, so the underlying verb
receives `None` in every payload slot no matter what the caller passed.
This theorem evaluates the wrapper bodies at concrete payloads and shows the
underlying verb receives `none` for each. -/
theorem get_post_payload_dropped :
    (get_args "/gist/x" (some "gist_version=2") (some "auth")).params = none ∧
    (post_args "/gist/create" (some "public=1") none (some "nb.ipynb") (some "auth")).data = none ∧
    (post_args "/data/record" none (some "blocks") none (some "auth")).json = none :=
  ⟨rfl, rfl, rfl⟩

/-- C4: on two consecutive 401 responses the retry wrapper issues the
underlying request exactly twice, performs the purge-and-reauthenticate
round exactly twice, and returns the second (still-401) response unmodified;
a first response with any non-401 status is returned as-is after a single
request and no authentication round. -/
theorem retry_two_401_then_returns_second (request : String → Response)
    (refresh : Nat → String) (headers : String) :
    ((request headers).status_code = 401 → (request (refresh 0)).status_code = 401 →
      _request_wrapper request refresh headers =
        (request (refresh 0),
         [.issueRequest headers, .purgeAndRefresh, .issueRequest (refresh 0), .purgeAndRefresh])) ∧
    ((request headers).status_code ≠ 401 →
      _request_wrapper request refresh headers = (request headers, [.issueRequest headers])) := by
  constructor
  · intro h1 h2
    simp [_request_wrapper, h1, h2]
  · intro h1
    simp [_request_wrapper, h1]

/-- Witness for C4: a transport that always answers 401, and one that
answers 200, at concrete headers. -/
theorem retry_two_401_then_returns_second_witness :
    _request_wrapper (fun _ => ⟨401, "unauthorized"⟩) (fun _ => "h1") "h0" =
      (⟨401, "unauthorized"⟩,
       [.issueRequest "h0", .purgeAndRefresh, .issueRequest "h1", .purgeAndRefresh]) ∧
    _request_wrapper (fun _ => ⟨200, "ok"⟩) (fun _ => "h1") "h0" =
      (⟨200, "ok"⟩, [.issueRequest "h0"]) := by
  refine ⟨?_, ?_⟩
  · exact (retry_two_401_then_returns_second (fun _ => ⟨401, "unauthorized"⟩)
      (fun _ => "h1") "h0").1 rfl rfl
  · exact (retry_two_401_then_returns_second (fun _ => ⟨200, "ok"⟩)
      (fun _ => "h1") "h0").2 (by decide)

/-- Helper: on `W2`, attaching the single existing regular file `a.txt`
exhausts any amount of fuel — the existing-file branch of the loop calls
`_attach_files` back on the same path. -/
theorem attach_str_diverges (fuel : Nat) :
    _attach_files fuel W2 (.str "a.txt") "s123" (some 1) false = none := by
  induction fuel with
  | zero => rfl
  | succ n ih =>
    have hd : W2.fs_isDir "a.txt" = false := rfl
    have he : W2.fs_exists "a.txt" = true := rfl
    simp [_attach_files, pathsIsEmpty, toPathList, _attach_step, hd, he, ih]

/-- Helper: the same divergence for the list `["a.txt"]` as passed by
`commit`. -/
theorem attach_list_diverges (fuel : Nat) :
    _attach_files fuel W2 (.list ["a.txt"]) "s123" (some 1) false = none := by
  cases fuel with
  | zero => rfl
  | succ n =>
    have hd : W2.fs_isDir "a.txt" = false := rfl
    have he : W2.fs_exists "a.txt" = true := rfl
    simp [_attach_files, pathsIsEmpty, toPathList, _attach_step, hd, he, attach_str_diverges n]

/-- C2: the claim states the attachment step terminates, attaching each
existing regular file as an individual upload.  On the source, an existing
regular file path hits the branch `elif os.path.exists(path):` whose body
calls `_attach_files(path, ...)` — the plural function itself, not
`_attach_file` — with the same single path, so the attachment step recurses
forever (a `RecursionError` at runtime) and `commit` never completes: for
every fuel bound the run is still unfinished.  (Directory paths and missing
paths do terminate; the divergence is specific to existing regular files.) -/
theorem attach_files_diverges_on_regular_file (fuel : Nat) :
    commit W2 fuel none (.list ["a.txt"]) (.list []) none "auto" none none false true "auto"
      none (fun _ => none) = none := by
  have h := attach_list_diverges fuel
  simp [commit, _parse_filename, _parse_project, create_gist_simple, _capture_environment, h,
    show W2.in_script = true from rfl, show W2.in_notebook = false from rfl,
    show W2.script_filename = some "train.py" from rfl,
    show W2.fs_openErr "train.py" = none from rfl,
    show W2.create_gist =
      Except.ok { slug := "s123", owner_username := "alice", version := 1, title := "train" }
      from rfl]

/-- C3 counterexample: a run in which every step up to the record flush
succeeds, one record slug is buffered, and the record-association request
fails.  `commit` installs no handler around `_attach_records`, so the
failure propagates to the caller as an exception, and the final success log
never runs — the per-step failure is neither caught nor isolated, contrary
to the claim. -/
theorem commit_record_flush_uncaught :
    commit W3 1 none (.list []) (.list []) none "auto" none none false true "auto"
        none (fun _ => none) = some (E3, .error recordsErr) ∧
      E3.all (fun e => !e.isSuccessLog) = true :=
  ⟨rfl, by decide⟩

/-- C5: the claim states that a failed metadata fetch is logged and turned
into `(None, None)`.  On the source, `api.get_gist` raises on any non-200
response and `_parse_project` installs no handler — its
`if not metadata:` branch only fires on a 200 response with falsy data — so
the exception propagates out of `commit`; nothing is logged and no
`(None, None)` fallback happens.  This theorem evaluates `commit` at such a
run: the trace contains only the fetch attempt, and the result is the
raised error. -/
theorem metadata_fetch_failure_raises :
    commit W5 1 none (.list []) (.list []) none "auto" none (some "alice/proj") false true "auto"
        none (fun _ => none)
      = some ([.api (.getGist "alice/proj")], .error gistFetchErr) := rfl

/-- C6: the claim states that with `git_commit=True` inside a git
repository, `commit` performs a git commit and logs its metadata as a
'git'-type record.  The body of `commit` in the source never invokes
`_perform_git_commit` (the helper is defined but dead), so a fully
successful run with `git_commit=True` and a git repository present produces
no git effect at all — while `_perform_git_commit` itself, had it been
called, would have produced the reset, the git commit and the git-info
record. -/
theorem commit_performs_no_git_ops :
    commit W0 1 none (.list []) (.list []) none "auto" none none false true "auto"
        none (fun _ => none) = some (E6, .ok ()) ∧
      E6.countP (fun e => e.isGit) = 0 ∧
      _perform_git_commit W0 "train.py" true "auto" =
        [.git (.resetRecords "git"),
         .git (.gitCommit "auto"),
         .log "Git repository identified. Performing git commit..." false,
         .git (.logGitRecord "git@github.com:alice/proj.git" "abc123" "train.py" "train.py")] :=
  ⟨rfl, by decide, rfl⟩

/-- C7: the claim states that paths in `outputs` are attached with the
artifact marker.  The source call site reads
`_attach_files(outputs, slug, version, output=False)`, so every output
attachment attempt carries `output = false`; moreover `_attach_file` fails
before ever reaching `api.upload_file` (and the transport's `post` drops its
`data` payload anyway), so no upload request carrying an artifact marker is
ever issued.  This theorem evaluates a run with one output directory: the
only attachment attempt has its output flag `false`. -/
theorem outputs_attached_without_artifact_marker :
    commit W7 1 none (.list []) (.list ["outdir"]) none "auto" none none false true "auto"
        none (fun _ => none) = some (E7, .ok ()) ∧
      E7.filter (fun e => e.isAttach) = [.attachAttempt "outdir/model.h5" false] :=
  ⟨rfl, by decide⟩

/-- Helper: folding the attachment loop over paths that are each a directory
or missing never consults the recursive `_attach_files` call, so it always
produces a trace; accumulated effects persist, and each missing path
contributes its not-found error log. -/
theorem attach_step_fold_sound (recur : String → Option (List Eff)) (w : World)
    (slug : String) (v : Option Nat) (out : Bool) (lst : List String) :
    ∀ acc : List Eff, (∀ p ∈ lst, w.fs_isDir p = false → w.fs_exists p = false) →
      ∃ effs, lst.foldl (_attach_step recur w slug v out) (some acc) = some effs ∧
        (∀ e ∈ acc, e ∈ effs) ∧
        (∀ p ∈ lst, w.fs_isDir p = false →
          Eff.log ("Ignoring \"" ++ p ++ "\" (not found)") true ∈ effs) := by
  induction lst with
  | nil =>
    intro acc _
    exact ⟨acc, rfl, fun e he => he, by simp⟩
  | cons p rest ih =>
    intro acc h
    by_cases hd : w.fs_isDir p = true
    · obtain ⟨effs, h1, h2, h3⟩ :=
        ih (acc ++ _walk_attach w p slug v out)
          (fun q hq hq2 => h q (List.mem_cons_of_mem _ hq) hq2)
      refine ⟨effs, ?_, ?_, ?_⟩
      · rw [List.foldl_cons,
          show _attach_step recur w slug v out (some acc) p =
            some (acc ++ _walk_attach w p slug v out) by simp [_attach_step, hd]]
        exact h1
      · exact fun e he => h2 e (List.mem_append_left _ he)
      · intro q hq hqd
        rcases List.mem_cons.mp hq with rfl | hq2
        · rw [hd] at hqd; cases hqd
        · exact h3 q hq2 hqd
    · have hd2 : w.fs_isDir p = false := by simpa using hd
      have hm : w.fs_exists p = false := h p (List.mem_cons_self p rest) hd2
      obtain ⟨effs, h1, h2, h3⟩ :=
        ih (acc ++ [.log ("Ignoring \"" ++ p ++ "\" (not found)") true])
          (fun q hq hq2 => h q (List.mem_cons_of_mem _ hq) hq2)
      refine ⟨effs, ?_, ?_, ?_⟩
      · rw [List.foldl_cons,
          show _attach_step recur w slug v out (some acc) p =
            some (acc ++ [.log ("Ignoring \"" ++ p ++ "\" (not found)") true]) by
              simp [_attach_step, hd2, hm]]
        exact h1
      · exact fun e he => h2 e (List.mem_append_left _ he)
      · intro q hq hqd
        rcases List.mem_cons.mp hq with rfl | hq2
        · exact h2 _ (List.mem_append_right _ (List.mem_singleton_self _))
        · exact h3 q hq2 hqd

/-- Helper: with positive fuel, `_attach_files` terminates on a list of
paths that are each a directory or missing, logging every missing path. -/
theorem attach_files_safe (w : World) (lst : List String) (slug : String) (v : Option Nat)
    (out : Bool) (fuel : Nat)
    (h : ∀ p ∈ lst, w.fs_isDir p = false → w.fs_exists p = false) :
    ∃ effs, _attach_files (fuel + 1) w (.list lst) slug v out = some effs ∧
      ∀ p ∈ lst, w.fs_isDir p = false →
        Eff.log ("Ignoring \"" ++ p ++ "\" (not found)") true ∈ effs := by
  cases lst with
  | nil => exact ⟨[], rfl, by simp⟩
  | cons p rest =>
    obtain ⟨effs, h1, _, h3⟩ := attach_step_fold_sound
      (fun path => _attach_files fuel w (.str path) slug v out) w slug v out (p :: rest)
      [Eff.log ("Uploading additional " ++ (if out then "outputs" else "files") ++ "...") false] h
    refine ⟨effs, ?_, h3⟩
    simpa [_attach_files, pathsIsEmpty, toPathList] using h1

/-- C8: `_parse_project` given an explicit identifier fetches metadata for
`username ++ "/" ++ title` (after querying the current user) exactly when
the identifier is neither an opaque id (`is_uuid`) nor contains the owner
separator; an opaque id or an `owner/title` name is fetched directly, and
the current user is never queried. -/
theorem bare_title_prepends_username (w : World) (current_slug : Option String)
    (rc : String → Option String) (proj filename : String) (new_project : Bool) (u : String)
    (hu : w.get_current_user = .ok u) :
    (w.is_uuid proj = false → containsSlash proj = false →
      ∃ rest, (_parse_project w current_slug rc (some proj) filename new_project).1 =
        .api .getCurrentUser :: .api (.getGist (u ++ "/" ++ proj)) :: rest) ∧
    (w.is_uuid proj = true ∨ containsSlash proj = true →
      ∃ rest, (_parse_project w current_slug rc (some proj) filename new_project).1 =
          .api (.getGist proj) :: rest ∧
        Eff.api .getCurrentUser ∉ rest) := by
  constructor
  · intro h1 h2
    cases hg : w.get_gist (u ++ "/" ++ proj) with
    | error e => exact ⟨[], by simp [_parse_project, h1, h2, hu, hg]⟩
    | ok md =>
      cases md with
      | none =>
        exact ⟨[.log ("Failed to retrieve metadata for the project \"" ++ proj ++ "\"") false],
          by simp [_parse_project, h1, h2, hu, hg]⟩
      | some md =>
        cases ha : w.get_gist_access md.slug with
        | error e =>
          exact ⟨[.api (.checkAccess md.slug)], by simp [_parse_project, h1, h2, hu, hg, ha]⟩
        | ok write =>
          cases write with
          | false =>
            exact ⟨[.api (.checkAccess md.slug)], by simp [_parse_project, h1, h2, hu, hg, ha]⟩
          | true =>
            cases hs : md.slug with
            | none =>
              rw [hs] at ha
              exact ⟨[.api (.checkAccess none),
                .log ("Creating a new notebook on " ++ w.webapp_url) false],
                by simp [_parse_project, h1, h2, hu, hg, ha, hs]⟩
            | some s =>
              rw [hs] at ha
              exact ⟨[.api (.checkAccess (some s)),
                .log ("Updating notebook \"" ++ proj ++ "\" on " ++ w.webapp_url) false],
                by simp [_parse_project, h1, h2, hu, hg, ha, hs]⟩
  · intro h
    have hcond : (w.is_uuid proj || containsSlash proj) = true := by
      rcases h with h | h <;> simp [h]
    cases hg : w.get_gist proj with
    | error e => exact ⟨[], by simp [_parse_project, hcond, hg], by simp⟩
    | ok md =>
      cases md with
      | none =>
        exact ⟨[.log ("Failed to retrieve metadata for the project \"" ++ proj ++ "\"") false],
          by simp [_parse_project, hcond, hg], by simp⟩
      | some md =>
        cases ha : w.get_gist_access md.slug with
        | error e =>
          exact ⟨[.api (.checkAccess md.slug)], by simp [_parse_project, hcond, hg, ha], by simp⟩
        | ok write =>
          cases write with
          | false =>
            exact ⟨[.api (.checkAccess md.slug)], by simp [_parse_project, hcond, hg, ha], by simp⟩
          | true =>
            cases hs : md.slug with
            | none =>
              rw [hs] at ha
              exact ⟨[.api (.checkAccess none),
                .log ("Creating a new notebook on " ++ w.webapp_url) false],
                by simp [_parse_project, hcond, hg, ha, hs], by simp⟩
            | some s =>
              rw [hs] at ha
              exact ⟨[.api (.checkAccess (some s)),
                .log ("Updating notebook \"" ++ proj ++ "\" on " ++ w.webapp_url) false],
                by simp [_parse_project, hcond, hg, ha, hs], by simp⟩

/-- Witness for C8: on `W0` (current user `alice`), the bare title `proj`
is fetched as `alice/proj` after querying the user, while the explicit
`bob/proj` is fetched directly with no user query. -/
theorem bare_title_prepends_username_witness :
    (∃ rest, (_parse_project W0 none (fun _ => none) (some "proj") "train.py" false).1 =
      .api .getCurrentUser :: .api (.getGist ("alice" ++ "/" ++ "proj")) :: rest) ∧
    (∃ rest, (_parse_project W0 none (fun _ => none) (some "bob/proj") "train.py" false).1 =
        .api (.getGist "bob/proj") :: rest ∧
      Eff.api .getCurrentUser ∉ rest) := by
  constructor
  · exact (bare_title_prepends_username W0 none (fun _ => none) "proj" "train.py" false
      "alice" rfl).1 rfl (by decide)
  · exact (bare_title_prepends_username W0 none (fun _ => none) "bob/proj" "train.py" false
      "alice" rfl).2 (Or.inr (by decide))

/-- C9: when metadata for the resolved identifier is successfully fetched
but the `check-access` query reports no write permission, `_parse_project`
returns `(None, None)`. -/
theorem write_denied_returns_none_pair (w : World) (current_slug : Option String)
    (rc : String → Option String) (proj filename : String) (new_project : Bool) (md : GistMeta)
    (hform : w.is_uuid proj = true ∨ containsSlash proj = true)
    (hmeta : w.get_gist proj = .ok (some md))
    (hacc : w.get_gist_access md.slug = .ok false) :
    (_parse_project w current_slug rc (some proj) filename new_project).2 = .ok (none, none) := by
  have hcond : (w.is_uuid proj || containsSlash proj) = true := by
    rcases hform with h | h <;> simp [h]
  simp [_parse_project, hcond, hmeta, hacc]

/-- Witness for C9: on `Wd`, metadata for `bob/proj` resolves to slug `s777`
but write access is denied, and the resolver yields `(None, None)`. -/
theorem write_denied_returns_none_pair_witness :
    (_parse_project Wd none (fun _ => none) (some "bob/proj") "train.py" false).2 =
      .ok (none, none) :=
  write_denied_returns_none_pair Wd none (fun _ => none) "bob/proj" "train.py" false
    { owner_username := "bob", title := "proj", slug := some "s777" }
    (Or.inr (by decide)) rfl rfl

/-- C10: with `new_project = true` and an explicit project name, the
resolver still fetches metadata and checks access for that name, and —
given write permission — `commit` uploads the new version to the resolved
existing project's slug and never calls the gist-creation endpoint,
whatever the cached `_current_slug` and rcfile contents are (the flag only
disables their reuse, which is irrelevant when a name is given). -/
theorem new_project_explicit_name_attaches_existing
    (w : World) (current_slug : Option String) (rc : String → Option String)
    (p fn sl : String) (md : GistMeta) (res : GistRes) (fuel : Nat)
    (hscript : w.in_script = true) (hnb : w.in_notebook = false)
    (hfn : w.script_filename = some fn)
    (hform : w.is_uuid p = true ∨ containsSlash p = true)
    (hmeta : w.get_gist p = .ok (some md))
    (hslug : md.slug = some sl)
    (hsl : sl ≠ "")
    (hacc : w.get_gist_access (some sl) = .ok true)
    (hopen : w.fs_openErr fn = none)
    (hup : w.upload_notebook sl = .ok res)
    (hrec : w.record_slugs = []) :
    ∃ effs,
      commit w (fuel + 1) none (.list []) (.list []) none "auto" none (some p) true true "auto"
          current_slug rc = some (effs, .ok ()) ∧
        Eff.api (.getGist p) ∈ effs ∧
        Eff.api (.checkAccess (some sl)) ∈ effs ∧
        Eff.api (.uploadNotebook sl) ∈ effs ∧
        Eff.api .createGist ∉ effs := by
  have hcond : (w.is_uuid p || containsSlash p) = true := by
    rcases hform with h | h <;> simp [h]
  refine ⟨[.api (.getGist p), .api (.checkAccess (some sl)),
    .log ("Updating notebook \"" ++ p ++ "\" on " ++ w.webapp_url) false,
    .log "Uploading notebook.." false, .api (.uploadNotebook sl),
    .setCurrentSlug res.slug, .rcWrite fn res.slug,
    .log ("Committed successfully! " ++ w.webapp_url ++ res.owner_username ++ "/" ++ res.title)
      false], ?_, by simp, by simp, by simp, by simp⟩
  simp [commit, _parse_filename, _parse_project, create_gist_simple, _capture_environment,
    _attach_files, pathsIsEmpty, _attach_records, hscript, hnb, hfn, hcond, hmeta, hslug,
    hacc, hopen, hup, hrec, hsl]

/-- Witness for C10: on `Wc`, committing with `new_project = true` and the
explicit name `bob/proj` — with a stale in-memory slug and a stale rcfile
entry present — resolves `bob/proj`, checks access on `s777`, and uploads
to `s777` without creating a new gist. -/
theorem new_project_explicit_name_attaches_existing_witness :
    ∃ effs,
      commit Wc 1 none (.list []) (.list []) none "auto" none (some "bob/proj") true true "auto"
          (some "stale") (fun _ => some "stale2") = some (effs, .ok ()) ∧
        Eff.api (.getGist "bob/proj") ∈ effs ∧
        Eff.api (.checkAccess (some "s777")) ∈ effs ∧
        Eff.api (.uploadNotebook "s777") ∈ effs ∧
        Eff.api .createGist ∉ effs :=
  new_project_explicit_name_attaches_existing Wc (some "stale") (fun _ => some "stale2")
    "bob/proj" "train.py" "s777"
    { owner_username := "bob", title := "proj", slug := some "s777" }
    { slug := "s777", owner_username := "bob", version := 5, title := "proj" } 0
    rfl rfl rfl (Or.inr (by decide)) rfl rfl (by decide) rfl rfl rfl rfl

/-- C3, amended: failures of the kinds the best-effort steps anticipate —
a `CondaError` from the conda capture, any exception from the pip capture,
and per-path attachment failures (here: missing paths) — are caught and
logged with the error flag and do not prevent the remaining steps,
including the final success log, from running; a record-buffer flush
failure, however, is not caught: it propagates to the caller as an
exception and the final success log never runs. -/
theorem commit_best_effort_steps_contained
    (w v : World) (fn m1 m2 em t : String) (res res2 : GistRes)
    (ts fpaths opaths : List String) (fuel : Nat)
    (hscript : w.in_script = true) (hnb : w.in_notebook = false)
    (hfn : w.script_filename = some fn)
    (hopen : w.fs_openErr fn = none)
    (hcreate : w.create_gist = .ok res)
    (hconda : w.conda = .condaErr m1)
    (hpip : w.pip = .otherErr m2)
    (hrec : w.record_slugs = [])
    (hf : ∀ p ∈ fpaths, w.fs_isDir p = false → w.fs_exists p = false)
    (ho : ∀ p ∈ opaths, w.fs_isDir p = false → w.fs_exists p = false)
    (vscript : v.in_script = true) (vnb : v.in_notebook = false)
    (vfn : v.script_filename = some fn)
    (vopen : v.fs_openErr fn = none)
    (vcreate : v.create_gist = .ok res2)
    (vrec : v.record_slugs = t :: ts)
    (vpost : v.post_records = .error em) :
    (∃ effs,
      commit w (fuel + 1) none (.list fpaths) (.list opaths) (some "auto") "auto" none none
          false true "auto" none (fun _ => none) = some (effs, .ok ()) ∧
        Eff.log m1 true ∈ effs ∧ Eff.log m2 true ∈ effs ∧
        (∀ p ∈ fpaths, w.fs_isDir p = false →
          Eff.log ("Ignoring \"" ++ p ++ "\" (not found)") true ∈ effs) ∧
        (∀ p ∈ opaths, w.fs_isDir p = false →
          Eff.log ("Ignoring \"" ++ p ++ "\" (not found)") true ∈ effs) ∧
        Eff.log ("Committed successfully! " ++ w.webapp_url ++ res.owner_username ++ "/" ++
          res.title) false ∈ effs) ∧
    (∃ effs2,
      commit v (fuel + 1) none (.list []) (.list []) none "auto" none none false true "auto"
          none (fun _ => none) = some (effs2, .error em) ∧
        ∀ e ∈ effs2, e.isSuccessLog = false) := by
  constructor
  · obtain ⟨e5, h5, h5m⟩ := attach_files_safe w fpaths res.slug (some res.version) false fuel hf
    obtain ⟨e6, h6, h6m⟩ := attach_files_safe w opaths res.slug (some res.version) false fuel ho
    refine ⟨Eff.log "Uploading notebook.." false :: .api .createGist :: .setCurrentSlug res.slug ::
      .rcWrite fn res.slug :: .log "Capturing environment.." false :: .log m1 true ::
      .log m2 true :: (e5 ++ (e6 ++ [.log ("Committed successfully! " ++ w.webapp_url ++
        res.owner_username ++ "/" ++ res.title) false])), ?_, by simp, by simp, ?_, ?_, by simp⟩
    · simp [commit, _parse_filename, _parse_project, create_gist_simple, _capture_environment,
        _attach_records, hscript, hnb, hfn, hopen, hcreate, hconda, hpip, hrec, h5, h6]
    · intro q hq hqd
      have hmem := h5m q hq hqd
      simp only [List.mem_cons, List.mem_append, List.mem_singleton]
      tauto
    · intro q hq hqd
      have hmem := h6m q hq hqd
      simp only [List.mem_cons, List.mem_append, List.mem_singleton]
      tauto
  · refine ⟨[.log "Uploading notebook.." false, .api .createGist, .setCurrentSlug res2.slug,
      .rcWrite fn res2.slug,
      .log "Attaching records (metrics, hyperparameters, datasets, git etc.)" false,
      .api (.postRecords res2.slug)], ?_, ?_⟩
    · simp [commit, _parse_filename, _parse_project, create_gist_simple, _capture_environment,
        _attach_files, pathsIsEmpty, _attach_records, vscript, vnb, vfn, vopen, vcreate, vrec,
        vpost]
    · intro e he
      simp only [List.mem_cons, List.not_mem_nil, or_false] at he
      rcases he with rfl | rfl | rfl | rfl | rfl | rfl <;> rfl

/-- Witness for C3's amended statement: on `W3a` (conda raises a
`CondaError`, pip raises another exception, `miss.txt` does not exist) the
commit still completes with the success log, with each failure logged; on
`W3` (a buffered record and a failing record-association call) the commit
raises and no success log appears. -/
theorem commit_best_effort_steps_contained_witness :
    (∃ effs,
      commit W3a 1 none (.list ["miss.txt"]) (.list []) (some "auto") "auto" none none
          false true "auto" none (fun _ => none) = some (effs, .ok ()) ∧
        Eff.log "CondaError: conda not found" true ∈ effs ∧
        Eff.log "pip freeze failed" true ∈ effs ∧
        (∀ p ∈ ["miss.txt"], W3a.fs_isDir p = false →
          Eff.log ("Ignoring \"" ++ p ++ "\" (not found)") true ∈ effs) ∧
        (∀ p ∈ ([] : List String), W3a.fs_isDir p = false →
          Eff.log ("Ignoring \"" ++ p ++ "\" (not found)") true ∈ effs) ∧
        Eff.log ("Committed successfully! " ++ W3a.webapp_url ++ "alice" ++ "/" ++
          "train") false ∈ effs) ∧
    (∃ effs2,
      commit W3 1 none (.list []) (.list []) none "auto" none none false true "auto"
          none (fun _ => none) = some (effs2, .error recordsErr) ∧
        ∀ e ∈ effs2, e.isSuccessLog = false) :=
  commit_best_effort_steps_contained W3a W3 "train.py" "CondaError: conda not found"
    "pip freeze failed" recordsErr "t1"
    { slug := "s123", owner_username := "alice", version := 1, title := "train" }
    { slug := "s123", owner_username := "alice", version := 1, title := "train" }
    [] ["miss.txt"] [] 0
    rfl rfl rfl rfl rfl rfl rfl rfl
    (fun _ _ _ => rfl) (fun p hp => absurd hp (List.not_mem_nil p))
    rfl rfl rfl rfl rfl rfl rfl

end Jovian
